import Mathlib

/-!
Verification of the prefect-oci repository core: a shallow embedding of
the platform model (prefect_oci/provider/platform.py), the credential
resolver (prefect_oci/provider/auth.py), the registry pull orchestration
and digest extraction (prefect_oci/provider/registry.py), the image index
assembler (prefect_oci/provider/image.py), and the archive utilities
(prefect_oci/utils/archive.py), together with theorems settling the
specification claims about them.
-/

/-! ## A small model of Python JSON values and dictionaries

Python dictionaries coming from `response.json()` are modelled as
association lists of string keys to JSON values; `dict.get(k)` is
`jGet`, returning `none` when the key is absent.  Python string values
that may be wrapped in a pydantic `SecretStr` are modelled by `PyStr`.
-/

inductive JValue where
  | null
  | boolean (b : Bool)
  | num (n : Int)
  | str (s : String)
  | arr (elems : List JValue)
  | obj (fields : List (String × JValue))

abbrev PyDict := List (String × JValue)

/-- `d.get(k)`: first binding of key `k`, `none` when absent. -/
def jGet (d : PyDict) (k : String) : Option JValue :=
  (d.find? (fun kv => kv.1 == k)).map (fun kv => kv.2)

/-- `k in d` for a Python dictionary. -/
def jHas (d : PyDict) (k : String) : Bool :=
  (d.find? (fun kv => kv.1 == k)).isSome

/-- A Python string value which may or may not be wrapped in a pydantic
SecretStr (an object with a get_secret_value method). -/
inductive PyStr where
  | str (s : String)
  | secretStr (s : String)
deriving Repr, DecidableEq

/-- `password.get_secret_value()` applied when the attribute exists,
identity otherwise (auth.py lines 84-86). -/
def unwrap_secret : PyStr → PyStr
  | .secretStr s => .str s
  | v => v

/-! ## Platform model — prefect_oci/provider/platform.py

`platform_regex` is
`(?P<os>[^/]+)(?:/(?P<architecture>[^/]+)(?:/(?P<variant>[^/]+))?)?$`,
matched with `re.match` (anchored at the start, and `$` anchors the end;
every group is `[^/]+`, so `[^/]+` also consumes a final newline, making
the pattern equivalent to a full match).  A string matches exactly when
it consists of 1, 2 or 3 non-empty slash-free segments separated by
`/`, which is exactly the shape of its `splitOn "/"` decomposition. -/

structure PlatformMatch where
  os : String
  architecture : Option String
  variant : Option String
deriving Repr, DecidableEq

/-- Splitting a character list at every `/`, with Python `str.split("/")`
semantics: empty segments are preserved and the result is never the empty
list. -/
def splitOnSlash : List Char → List (List Char)
  | [] => [[]]
  | c :: rest =>
    if c = '/' then [] :: splitOnSlash rest
    else
      match splitOnSlash rest with
      | seg :: segs => (c :: seg) :: segs
      | [] => [[c]]

def platform_regex_match (s : String) : Option PlatformMatch :=
  match splitOnSlash s.toList with
  | [o] => if o = [] then none else some ⟨⟨o⟩, none, none⟩
  | [o, a] => if o = [] ∨ a = [] then none else some ⟨⟨o⟩, some ⟨a⟩, none⟩
  | [o, a, v] =>
    if o = [] ∨ a = [] ∨ v = [] then none
    else some ⟨⟨o⟩, some ⟨a⟩, some ⟨v⟩⟩
  | _ => none

/-- The pydantic model Platform: `os` and `architecture` are required
(`Field(...)`) plain strings, `variant` is optional. -/
structure Platform where
  os : String
  architecture : String
  variant : Option String
deriving Repr, DecidableEq

inductive FromStrError where
  /-- `ValueError(f"Invalid platform string: ...")` raised when the regex
  does not match (platform.py line 40). -/
  | invalidPlatformString (s : String)
  /-- pydantic ValidationError raised by `Platform(**data)` when a required
  field (`os` or `architecture`) receives `None`. -/
  | validationError
deriving Repr, DecidableEq

/-- `Platform.from_str` (platform.py lines 36-49): regex-match the input,
raise if there is no match, then construct the pydantic model from the
three captured groups; construction validates that `os` and
`architecture` are present strings. -/
def Platform.from_str (s : String) : Except FromStrError Platform :=
  match platform_regex_match s with
  | none => .error (.invalidPlatformString s)
  | some m =>
    match m.architecture with
    | some a => .ok ⟨m.os, a, m.variant⟩
    | none => .error .validationError

/-- `other.get(k) is None` for a JSON-valued dictionary: true when the key
is absent or explicitly null (Python None). -/
def pyIsNone (v : Option JValue) : Bool :=
  match v with
  | none => true
  | some .null => true
  | _ => false

/-- Python `s == other.get(k)` where `s` is a str: true only when the
looked-up value is an equal string. -/
def pyStrEq (s : String) (v : Option JValue) : Bool :=
  match v with
  | some (.str t) => s == t
  | _ => false

/-- Python `self.variant == other.get("variant")` in the second disjunct of
`is_match`; `self.variant` is Optional[str].  (When the looked-up value is
None the first disjunct already holds, so the `none, none` case of this
helper is never relevant; Python equality of None with a string or of a
string with a non-string value is False.) -/
def pyOptStrEq (s : Option String) (v : Option JValue) : Bool :=
  match s, v with
  | some u, some (.str t) => u == t
  | _, _ => false

/-- `Platform.is_match` (platform.py lines 51-62): for each of the three
fields, the filter dict either lacks the key (or maps it to None), or the
value must equal the platform's field. -/
def Platform.is_match (self : Platform) (other : PyDict) : Bool :=
  (pyIsNone (jGet other "os") || pyStrEq self.os (jGet other "os")) &&
  (pyIsNone (jGet other "architecture") || pyStrEq self.architecture (jGet other "architecture")) &&
  (pyIsNone (jGet other "variant") || pyOptStrEq self.variant (jGet other "variant"))

/-! ## Credential resolver — prefect_oci/provider/auth.py -/

/-- Credential payloads are string-keyed dictionaries whose values are
(possibly secret-wrapped) strings. -/
abbrev CredDict := List (String × PyStr)

def credGet (d : CredDict) (k : String) : Option PyStr :=
  (d.find? (fun kv => kv.1 == k)).map (fun kv => kv.2)

def credHas (d : CredDict) (k : String) : Bool :=
  (d.find? (fun kv => kv.1 == k)).isSome

/-- The cloud-IAM indicator keys checked by resolve_credentials
(auth.py lines 63-68). -/
def aws_keys : List String :=
  ["aws_access_key_id", "profile_name", "region_name", "assume_role_arn"]

/-- Result tuple of resolve_credentials:
`(username, password, registry_url, auth_backend)`. -/
structure ResolvedCredentials where
  username : Option PyStr
  password : Option PyStr
  registry_url : Option PyStr
  auth_backend : String
deriving Repr, DecidableEq

/-- `resolve_credentials` (auth.py lines 46-93).  The ECR token exchange
`_get_ecr_token` performs network calls; it is abstracted as the function
parameter `exchange` returning the `(username, password)` pair. -/
def resolve_credentials (exchange : CredDict → String × String)
    (credentials : Option CredDict) (registry_url : String) :
    Except String ResolvedCredentials :=
  match credentials with
  | none => .ok ⟨none, none, none, "token"⟩
  | some creds =>
    if aws_keys.any (fun k => credHas creds k) then
      let up := exchange creds
      .ok ⟨some (.str up.1), some (.str up.2), some (.str registry_url), "basic"⟩
    else
      match credGet creds "username", credGet creds "password" with
      | some u, some p =>
        let password := unwrap_secret p
        let registry_url_from_block := (credGet creds "registry_url").getD (.str registry_url)
        .ok ⟨some u, some password, some registry_url_from_block, "token"⟩
      | _, _ => .error "Unsupported credentials format."

/-! ## Image-index JSON schema — prefect_oci/provider/schemas.py

The `image_index` jsonschema (draft 4 semantics): the document must be an
object with required keys `schemaVersion` and `manifests`; each property
listed in `imageIndexProperties` is type-checked when present; additional
properties are allowed.  The per-entry schema spreads the third-party
`oras.schemas.manifestProperties` (type constraints on descriptor fields,
which play no role in any claim and are not modelled — omitting a
`properties` entry only makes a jsonschema validator more permissive on
that key) and adds the `platform` property, which is fully in src:
an object requiring `architecture` and `os`, with typed optional fields. -/

def isStringJ : JValue → Bool
  | .str _ => true
  | _ => false

def isNumberJ : JValue → Bool
  | .num _ => true
  | _ => false

def isObjectJ : JValue → Bool
  | .obj _ => true
  | _ => false

def isArrayJ : JValue → Bool
  | .arr _ => true
  | _ => false

def isNullJ : JValue → Bool
  | .null => true
  | _ => false

/-- A jsonschema `properties` entry: constrains the value only when the
key is present. -/
def propOk (check : JValue → Bool) (v : Option JValue) : Bool :=
  match v with
  | none => true
  | some x => check x

def isStringArrayJ : JValue → Bool
  | .arr xs => xs.all isStringJ
  | _ => false

/-- The `platform` property schema of `imageIndexManifestProperties`
(schemas.py lines 5-20). -/
def validate_platform_property (v : JValue) : Bool :=
  match v with
  | .obj pf =>
    jHas pf "architecture" && jHas pf "os" &&
    propOk isStringJ (jGet pf "architecture") &&
    propOk isStringJ (jGet pf "os") &&
    propOk isStringJ (jGet pf "os.version") &&
    propOk isStringArrayJ (jGet pf "os.features") &&
    propOk isStringJ (jGet pf "variant") &&
    propOk isStringArrayJ (jGet pf "features")
  | _ => false

/-- An element of the index `manifests` array: an object, with the
`platform` property validated when present. -/
def validate_index_entry (v : JValue) : Bool :=
  match v with
  | .obj f => propOk validate_platform_property (jGet f "platform")
  | _ => false

/-- `jsonschema.validate(manifest, schema=image_index)` as a Boolean
predicate (schemas.py lines 22-47). -/
def validate_image_index (j : JValue) : Bool :=
  match j with
  | .obj f =>
    jHas f "schemaVersion" && jHas f "manifests" &&
    propOk isNumberJ (jGet f "schemaVersion") &&
    propOk isStringJ (jGet f "mediaType") &&
    propOk (fun v => isNullJ v || isStringJ v) (jGet f "artifactType") &&
    propOk (fun v => isNullJ v || isObjectJ v) (jGet f "subject") &&
    propOk (fun v => isObjectJ v || isNullJ v || isArrayJ v) (jGet f "annotations") &&
    propOk (fun v => match v with
      | .arr xs => xs.all validate_index_entry
      | _ => false) (jGet f "manifests")
  | _ => false

/-! ## Registry — prefect_oci/provider/registry.py -/

/-- Python exceptions distinguished by the registry code paths.  A
`ValueError` is what `except ValueError` catches; the jsonschema
ValidationError derives from Exception, not from ValueError, and a
KeyError does not derive from ValueError either. -/
inductive PyError where
  | valueError (msg : String)
  | jsonschemaValidationError
  | keyError (k : String)
deriving Repr, DecidableEq

/-- Which of the modelled exceptions `except ValueError` catches. -/
def PyError.isValueError : PyError → Bool
  | .valueError _ => true
  | _ => false

/-- `Registry._check_200_response` (inherited from oras): anything other
than a 200/201/202 status raises a ValueError. -/
def check_200 (status_code : Nat) : Bool :=
  status_code == 200 || status_code == 201 || status_code == 202

/-- An HTTP response as consumed by `get_manifest`: a status code and the
parsed JSON body. -/
structure HttpResponse where
  status_code : Nat
  body : JValue

/-- `Registry.get_image_index` (registry.py lines 107-125) composed with
`Registry.get_manifest` (lines 71-105), as a function of the registry's
response to the manifest request: check for a 2xx status (ValueError
otherwise), then validate the body against the `image_index` schema
(jsonschema ValidationError otherwise). -/
def get_image_index (r : HttpResponse) : Except PyError JValue :=
  if check_200 r.status_code then
    if validate_image_index r.body then .ok r.body else .error .jsonschemaValidationError
  else .error (.valueError "Issue with the request url")

/-- oras Container fields relevant here; `prefect_oci.provider.container.
Container` inherits them. -/
structure Container where
  registry : String
  repository : String
  tag : Option String
  digest : Option String
deriving Repr, DecidableEq

/-- `Container.with_new_digest` (container.py lines 23-39): deep-copy the
original, clear the tag, set the digest. -/
def Container.with_new_digest (original : Container) (digest : String) : Container :=
  { original with tag := none, digest := some digest }

/-- Fields of a manifests-array entry, as accessed by `manifest.get` in
the pull loop.  A non-object entry cannot reach the loop: schema
validation admits only objects into `manifests`. -/
def entry_fields : JValue → PyDict
  | .obj f => f
  | _ => []

/-- `manifest.get("platform", {})` in the pull loop (registry.py line
172).  Schema validation guarantees that a present `platform` is an
object, so the default branch beyond that is unreachable on validated
documents. -/
def entry_platform_fields (m : JValue) : PyDict :=
  match jGet (entry_fields m) "platform" with
  | some (.obj pf) => pf
  | _ => []

/-- The match test of the pull loop:
`platform.is_match(manifest.get("platform", {}))`. -/
def entry_match (host : Platform) (m : JValue) : Bool :=
  host.is_match (entry_platform_fields m)

/-- The platform-selection loop of `Registry.pull` (registry.py lines
171-179): take the first entry whose platform dict matches the host,
rewrite the container to that entry's digest and break; with no matching
entry the container is left unchanged.  `manifest["digest"]` raises a
KeyError when absent (descriptor digests are strings in every
schema-validated OCI document, so the non-string case is folded into the
KeyError branch). -/
def pull_select (host : Platform) (container : Container) :
    List JValue → Except PyError Container
  | [] => .ok container
  | m :: rest =>
    if entry_match host m then
      match jGet (entry_fields m) "digest" with
      | some (.str d) => .ok (container.with_new_digest d)
      | _ => .error (.keyError "digest")
    else pull_select host container rest

/-- `index.get("manifests", [])` (registry.py line 171). -/
def index_manifests (index : JValue) : List JValue :=
  match index with
  | .obj f =>
    match jGet f "manifests" with
    | some (.arr xs) => xs
    | _ => []
  | _ => []

/-- The index-handling phase of `Registry.pull` (registry.py lines
155-183): the try block fetches the target as an image index and runs the
platform-selection loop; `except ValueError` treats exactly a ValueError
as "not an image index" and continues with the original container; every
other exception propagates.  The returned container is the reference
passed on to the transport-level `super().pull(str(container), ...)`. -/
def pull_resolve (r : HttpResponse) (host : Platform) (container : Container) :
    Except PyError Container :=
  let attempt : Except PyError Container := do
    let index ← get_image_index r
    pull_select host container (index_manifests index)
  match attempt with
  | .ok c2 => .ok c2
  | .error e => if e.isValueError then .ok container else .error e

/-- `location.split("/")[-1]` (registry.py line 205); `str.split` never
returns an empty list, so the last element is total. -/
def last_path_segment (location : String) : String :=
  ⟨(splitOnSlash location.toList).getLastD []⟩

/-- A manifest/index upload response as read by digest extraction: the
status code and the two relevant response headers.  The
Docker-Content-Digest header is carried in the model even though the
source never reads it. -/
structure UploadResponse where
  status_code : Nat
  docker_content_digest : Option String
  location : Option String
deriving Repr, DecidableEq

/-- `Registry.extract_manifest_digest_from_upload_response` (registry.py
lines 191-209): check for a 2xx status, then return the last path segment
of the Location header when that header is present, else raise
`ValueError("Manifest digest not found in response headers.")`. -/
def extract_manifest_digest_from_upload_response (r : UploadResponse) :
    Except PyError String :=
  if check_200 r.status_code then
    match r.location with
    | some location => .ok (last_path_segment location)
    | none => .error (.valueError "Manifest digest not found in response headers.")
  else .error (.valueError "Issue with the request url")

/-! ## Image index assembler — prefect_oci/provider/image.py -/

/-- From prefect_oci/provider/defaults.py, which is not under src.
Modelled from the spec: `default_image_index_media_type` is the OCI
image-index media type used for `EmptyImageIndex` and index uploads. -/
def default_image_index_media_type : String :=
  "application/vnd.oci.image.index.v1+json"

/-- The dict comprehension of image.py line 32: every key of the input
manifest except `schemaVersion`, `layers` and `config`, in insertion
order. -/
def strip_index_entry_keys (mfst : PyDict) : PyDict :=
  mfst.filter (fun kv => !(["schemaVersion", "layers", "config"].contains kv.1))

/-- `create_oci_image_index_manifest` (image.py lines 19-34): a deep copy
of `EmptyImageIndex` (schemaVersion 2, index media type, empty manifests,
empty annotations) whose `manifests` list receives, in input order, one
stripped entry per input manifest. -/
def create_oci_image_index_manifest (manifests : List PyDict) : PyDict :=
  [("schemaVersion", .num 2),
   ("mediaType", .str default_image_index_media_type),
   ("manifests", .arr (manifests.map (fun mfst => .obj (strip_index_entry_keys mfst)))),
   ("annotations", .obj [])]

/-! ## Archive builder — prefect_oci/utils/archive.py -/

/-- The fields of a `tarfile.TarInfo` entry relevant to the archive
bytes: the archive name, the permission bits, the ownership and time
metadata rewritten by `reset`, and the file content the entry carries. -/
structure TarInfo where
  name : String
  mode : Nat
  uid : Nat
  gid : Nat
  uname : String
  gname : String
  mtime : Int
  content : List Nat
deriving Repr, DecidableEq

/-- `reset` (archive.py lines 11-21): zero the ownership fields and the
modification time of a tar entry before it is written. -/
def reset (tarinfo : TarInfo) : TarInfo :=
  { tarinfo with uid := 0, gid := 0, uname := "root", gname := "root", mtime := 0 }

/-- A source file as found on the filesystem: its path relative to the
working directory, its metadata, and its content bytes. -/
structure SourceFile where
  path : String
  mode : Nat
  uid : Nat
  gid : Nat
  uname : String
  gname : String
  mtime : Int
  content : List Nat
deriving Repr, DecidableEq

/-- `os.path.join` for the `arcname` computation
`os.path.join(archive_root or "", item)`: an empty root leaves the item
path unchanged. -/
def os_path_join (a b : String) : String :=
  if a = "" then b else a ++ "/" ++ b

/-- `tar_file.add(path, filter=reset, arcname=...)` first builds a
TarInfo from the file's filesystem metadata with the given archive name,
then passes it through the filter. -/
def gettarinfo (archive_root : Option String) (f : SourceFile) : TarInfo :=
  { name := os_path_join (archive_root.getD "") f.path
    mode := f.mode
    uid := f.uid
    gid := f.gid
    uname := f.uname
    gname := f.gname
    mtime := f.mtime
    content := f.content }

/-- `make_targz` (archive.py lines 24-58): serialize the reset tar
entries of the given files, in the caller-supplied order, into a tar
stream, and wrap it in a gzip stream constructed with `mtime=0` (the
wall-clock time `system_clock`, which `gzip.GzipFile` would use by
default, is ignored).  The tar and gzip encoders are deterministic
byte-stream functions of their inputs, abstracted as the parameters
`tar_serialize` and `gzip_compress` (the latter taking the header
timestamp and the payload). -/
def make_targz (tar_serialize : List TarInfo → List Nat)
    (gzip_compress : Int → List Nat → List Nat)
    (_system_clock : Int) (archive_root : Option String)
    (items : List SourceFile) : List Nat :=
  gzip_compress 0 (tar_serialize (items.map (fun f => reset (gettarinfo archive_root f))))

/-- The part of a source file that `reset` does not normalize: its path,
its permission bits and its content. -/
def source_identity (f : SourceFile) : String × Nat × List Nat :=
  (f.path, f.mode, f.content)

/-- The reset tar entry is a function of the source identity alone. -/
def reset_tarinfo_of (archive_root : Option String)
    (idy : String × Nat × List Nat) : TarInfo :=
  { name := os_path_join (archive_root.getD "") idy.1
    mode := idy.2.1
    uid := 0
    gid := 0
    uname := "root"
    gname := "root"
    mtime := 0
    content := idy.2.2 }

/-! ## SHA-256 and diff IDs — prefect_oci/utils/archive.py lines 61-70

`diff_id_from_tar_gz` opens the archive, wraps it in a gzip reader and
feeds the decompressed stream to `hashlib.file_digest(gzip_file,
"sha256")`, which reads the stream in successive chunks and updates a
SHA-256 context, never materializing the whole stream.  SHA-256 is
implemented concretely below (FIPS 180-4, on `Nat` with explicit
`% 2 ^ 32` masking); the streaming interface mirrors hashlib's
init / update / final contract. -/

def w32 (x : Nat) : Nat := x % 4294967296

def rotr32 (n x : Nat) : Nat := w32 ((x >>> n) ||| (x <<< (32 - n)))

def bigSigma0 (x : Nat) : Nat := rotr32 2 x ^^^ rotr32 13 x ^^^ rotr32 22 x

def bigSigma1 (x : Nat) : Nat := rotr32 6 x ^^^ rotr32 11 x ^^^ rotr32 25 x

def smallSigma0 (x : Nat) : Nat := rotr32 7 x ^^^ rotr32 18 x ^^^ (x >>> 3)

def smallSigma1 (x : Nat) : Nat := rotr32 17 x ^^^ rotr32 19 x ^^^ (x >>> 10)

def chF (x y z : Nat) : Nat := (x &&& y) ^^^ ((x ^^^ 4294967295) &&& z)

def majF (x y z : Nat) : Nat := (x &&& y) ^^^ (x &&& z) ^^^ (y &&& z)

def k256 : List Nat :=
  [1116352408, 1899447441, 3049323471, 3921009573, 961987163, 1508970993,
   2453635748, 2870763221, 3624381080, 310598401, 607225278, 1426881987,
   1925078388, 2162078206, 2614888103, 3248222580, 3835390401, 4022224774,
   264347078, 604807628, 770255983, 1249150122, 1555081692, 1996064986,
   2554220882, 2821834349, 2952996808, 3210313671, 3336571891, 3584528711,
   113926993, 338241895, 666307205, 773529912, 1294757372, 1396182291,
   1695183700, 1986661051, 2177026350, 2456956037, 2730485921, 2820302411,
   3259730800, 3345764771, 3516065817, 3600352804, 4094571909, 275423344,
   430227734, 506948616, 659060556, 883997877, 958139571, 1322822218,
   1537002063, 1747873779, 1955562222, 2024104815, 2227730452, 2361852424,
   2428436474, 2756734187, 3204031479, 3329325298]

def sha256_initH : List Nat :=
  [1779033703, 3144134277, 1013904242,
   2773480762, 1359893119, 2600822924,
   528734635, 1541459225]

def be32OfBytes (bs : List Nat) : Nat :=
  bs.foldl (fun acc b => acc * 256 + b % 256) 0

def blockWords (block : List Nat) : List Nat :=
  (List.range 16).map (fun i => be32OfBytes ((block.drop (4 * i)).take 4))

def scheduleExtend : List Nat → Nat → List Nat
  | ws, 0 => ws
  | ws, n + 1 =>
    let l := ws.length
    let next := w32 (smallSigma1 (ws.getD (l - 2) 0) + ws.getD (l - 7) 0 +
      smallSigma0 (ws.getD (l - 15) 0) + ws.getD (l - 16) 0)
    scheduleExtend (ws ++ [next]) n

def compress256 (h : List Nat) (block : List Nat) : List Nat :=
  let ws := scheduleExtend (blockWords block) 48
  let st0 := (h.getD 0 0, h.getD 1 0, h.getD 2 0, h.getD 3 0,
              h.getD 4 0, h.getD 5 0, h.getD 6 0, h.getD 7 0)
  let stN := (List.range 64).foldl (fun st i =>
    let t1 := w32 (st.2.2.2.2.2.2.2 + bigSigma1 st.2.2.2.2.1 +
      chF st.2.2.2.2.1 st.2.2.2.2.2.1 st.2.2.2.2.2.2.1 +
      k256.getD i 0 + ws.getD i 0)
    let t2 := w32 (bigSigma0 st.1 + majF st.1 st.2.1 st.2.2.1)
    (w32 (t1 + t2), st.1, st.2.1, st.2.2.1,
     w32 (st.2.2.2.1 + t1), st.2.2.2.2.1, st.2.2.2.2.2.1, st.2.2.2.2.2.2.1)) st0
  [w32 (h.getD 0 0 + stN.1), w32 (h.getD 1 0 + stN.2.1),
   w32 (h.getD 2 0 + stN.2.2.1), w32 (h.getD 3 0 + stN.2.2.2.1),
   w32 (h.getD 4 0 + stN.2.2.2.2.1), w32 (h.getD 5 0 + stN.2.2.2.2.2.1),
   w32 (h.getD 6 0 + stN.2.2.2.2.2.2.1), w32 (h.getD 7 0 + stN.2.2.2.2.2.2.2)]

/-- Fuel-indexed block absorption; the fuel only bounds the recursion
depth and is irrelevant once it is at least the number of complete
blocks (`absorbBlocksAux_fuel_irrelevant` below). -/
def absorbBlocksAux : Nat → List Nat → List Nat → List Nat × List Nat
  | 0, h, data => (h, data)
  | fuel + 1, h, data =>
    if 64 ≤ data.length then
      absorbBlocksAux fuel (compress256 h (data.take 64)) (data.drop 64)
    else (h, data)

/-- Greedily compress all complete 64-byte blocks, returning the new hash
vector and the remaining (under 64 bytes long) buffer. -/
def absorbBlocks (h : List Nat) (data : List Nat) : List Nat × List Nat :=
  absorbBlocksAux data.length h data

/-- A hashlib SHA-256 context: hash vector, buffered partial block, and
the total number of bytes absorbed so far. -/
structure Sha256State where
  h : List Nat
  buf : List Nat
  len : Nat
deriving Repr, DecidableEq

def sha256_init : Sha256State := ⟨sha256_initH, [], 0⟩

/-- `context.update(chunk)`. -/
def sha256_update (s : Sha256State) (chunk : List Nat) : Sha256State :=
  let hb := absorbBlocks s.h (s.buf ++ chunk)
  ⟨hb.1, hb.2, s.len + chunk.length⟩

def be64Bytes (n : Nat) : List Nat :=
  (List.range 8).map (fun i => (n >>> (8 * (7 - i))) % 256)

/-- FIPS 180-4 padding for a message of `len` bytes: 0x80, zeros up to 56
mod 64, then the bit length on 8 big-endian bytes. -/
def sha256_padding (len : Nat) : List Nat :=
  128 :: (List.replicate ((120 - (len + 1) % 64) % 64) 0 ++ be64Bytes (len * 8))

def wordsToBytes (ws : List Nat) : List Nat :=
  ws.flatMap (fun w => [(w >>> 24) % 256, (w >>> 16) % 256, (w >>> 8) % 256, w % 256])

/-- `context.digest()`: absorb the padding and serialize the hash vector. -/
def sha256_final (s : Sha256State) : List Nat :=
  wordsToBytes (absorbBlocks s.h (s.buf ++ sha256_padding s.len)).1

def hexChar (n : Nat) : Char :=
  if n < 10 then Char.ofNat (48 + n) else Char.ofNat (87 + n)

/-- `.hexdigest()` rendering of a byte list. -/
def bytesToHex (bs : List Nat) : String :=
  String.mk (bs.flatMap (fun b => [hexChar (b % 256 / 16), hexChar (b % 16)]))

/-- The SHA-256 hex digest of a whole byte stream. -/
def sha256_hexdigest (msg : List Nat) : String :=
  bytesToHex (sha256_final (sha256_update sha256_init msg))

/-- A gzip-compressed tar archive, as seen through a `gzip.GzipFile`
reader: the successive decompressed chunks that `hashlib.file_digest`
reads from it (their concatenation is the decompressed tar stream). -/
structure GzArchive where
  chunks : List (List Nat)

/-- `diff_id_from_tar_gz` (archive.py lines 61-70): stream the
decompressed chunks through a SHA-256 context and render the hex
digest. -/
def diff_id_from_tar_gz (archive : GzArchive) : String :=
  bytesToHex (sha256_final (archive.chunks.foldl sha256_update sha256_init))

/-! ## Concrete fixtures used by witness and counterexample theorems -/

def demo_exchange : CredDict → String × String := fun _ => ("AWS", "secret-token")

def host_amd64 : Platform := ⟨"linux", "amd64", none⟩

def entry_arm64 : JValue :=
  .obj [("mediaType", .str "application/vnd.oci.image.manifest.v1+json"),
        ("digest", .str "sha256:arm64digest"),
        ("size", .num 527),
        ("platform", .obj [("os", .str "linux"), ("architecture", .str "arm64")])]

def entry_amd64 : JValue :=
  .obj [("mediaType", .str "application/vnd.oci.image.manifest.v1+json"),
        ("digest", .str "sha256:amd64digest"),
        ("size", .num 527),
        ("platform", .obj [("os", .str "linux"), ("architecture", .str "amd64")])]

/-- A two-entry index, arm64 entry first, amd64 entry second. -/
def index_two_platforms : JValue :=
  .obj [("schemaVersion", .num 2),
        ("mediaType", .str default_image_index_media_type),
        ("manifests", .arr [entry_arm64, entry_amd64])]

/-- A plain single-image manifest: it parses as JSON but fails the
image-index schema (no `manifests` key). -/
def plain_manifest_doc : JValue :=
  .obj [("schemaVersion", .num 2),
        ("mediaType", .str "application/vnd.oci.image.manifest.v1+json"),
        ("config", .obj []),
        ("layers", .arr [])]

def c_orig : Container := ⟨"registry.example.com", "repo/image", some "latest", none⟩

def entry_no_platform_first : JValue := .obj [("digest", .str "sha256:d0")]

def entry_no_platform_second : JValue := .obj [("digest", .str "sha256:d1")]

def demo_tar_serialize (ts : List TarInfo) : List Nat := [ts.length]

def demo_gzip_compress (mtime : Int) (payload : List Nat) : List Nat :=
  mtime.toNat :: payload

/-- One file as seen during a first archive run. -/
def fileA_run1 : SourceFile :=
  ⟨"a.txt", 420, 1000, 1000, "alice", "staff", 1700000000, [104, 105]⟩

/-- The same file as seen during a second run: same path, mode and
content, different ownership and timestamp metadata. -/
def fileA_run2 : SourceFile :=
  ⟨"a.txt", 420, 0, 0, "root", "wheel", 99, [104, 105]⟩


/-! # Helper lemmas -/

theorem splitOnSlash_no_slash (xs : List Char) (hx : '/' ∉ xs) :
    splitOnSlash xs = [xs] := by
  induction xs with
  | nil => rfl
  | cons c rest ih =>
    have hc : ¬(c = '/') := fun h => hx (by simp [h])
    have hrest : '/' ∉ rest := fun h => hx (List.mem_cons_of_mem _ h)
    simp [splitOnSlash, hc, ih hrest]

theorem splitOnSlash_append_slash (xs ys : List Char) (hx : '/' ∉ xs) :
    splitOnSlash (xs ++ '/' :: ys) = xs :: splitOnSlash ys := by
  induction xs with
  | nil => simp [splitOnSlash]
  | cons c rest ih =>
    have hc : ¬(c = '/') := fun h => hx (by simp [h])
    have hrest : '/' ∉ rest := fun h => hx (List.mem_cons_of_mem _ h)
    simp [splitOnSlash, hc, ih hrest]

theorem string_mk_data (s : String) : (⟨s.data⟩ : String) = s := by
  cases s
  rfl

theorem pyStrEq_eq_true_iff (s : String) (v : Option JValue) :
    pyStrEq s v = true ↔ v = some (.str s) := by
  cases v with
  | none => simp [pyStrEq]
  | some x =>
    cases x <;> simp [pyStrEq]
    exact eq_comm

theorem pyOptStrEq_eq_true_iff (s : Option String) (v : Option JValue) :
    pyOptStrEq s v = true ↔ ∃ t, v = some (.str t) ∧ s = some t := by
  cases s with
  | none => cases v with
    | none => simp [pyOptStrEq]
    | some x => cases x <;> simp [pyOptStrEq]
  | some u =>
    cases v with
    | none => simp [pyOptStrEq]
    | some x => cases x <;> simp [pyOptStrEq]

/-! ## Claim C3 — Platform.from_str -/

/-- C3, counterexample: on the single-segment input `"linux"` the claim
says `from_str` returns a Platform carrying only the os component; the
code instead fails, because the regex leaves the architecture group as
None and the pydantic model requires `architecture`. -/
theorem C3_single_segment_counterexample :
    Platform.from_str "linux" = .error .validationError := rfl

/-- C3 (amended): `from_str` splits on `/`; 2 or 3 non-empty segments
round-trip into `{os, architecture}` and `{os, architecture, variant}`
exactly; a single non-empty segment matches the regex but fails pydantic
validation (architecture is required); the invalid-platform error occurs
exactly when the regex does not match, in particular on the empty
string. -/
theorem C3_from_str_parsing :
    (∀ o a : String, o.toList ≠ [] → a.toList ≠ [] →
      '/' ∉ o.toList → '/' ∉ a.toList →
      Platform.from_str (o ++ "/" ++ a) = .ok ⟨o, a, none⟩) ∧
    (∀ o a v : String, o.toList ≠ [] → a.toList ≠ [] → v.toList ≠ [] →
      '/' ∉ o.toList → '/' ∉ a.toList → '/' ∉ v.toList →
      Platform.from_str (o ++ "/" ++ a ++ "/" ++ v) = .ok ⟨o, a, some v⟩) ∧
    (∀ o : String, o.toList ≠ [] → '/' ∉ o.toList →
      Platform.from_str o = .error .validationError) ∧
    (∀ s : String,
      Platform.from_str s = .error (.invalidPlatformString s) ↔
        platform_regex_match s = none) ∧
    Platform.from_str "" = .error (.invalidPlatformString "") := by
  refine ⟨?_, ?_, ?_, ?_, rfl⟩
  · intro o a ho ha hos has
    have ht : (o ++ "/" ++ a).toList = o.toList ++ '/' :: a.toList := by
      simp [String.toList, String.data_append]
    have ho2 : ¬(o.data = []) := ho
    have ha2 : ¬(a.data = []) := ha
    unfold Platform.from_str platform_regex_match
    rw [ht, splitOnSlash_append_slash _ _ hos, splitOnSlash_no_slash _ has]
    simp [ho2, ha2, string_mk_data]
  · intro o a v ho ha hv hos has hvs
    have ht : (o ++ "/" ++ a ++ "/" ++ v).toList =
        o.toList ++ '/' :: (a.toList ++ '/' :: v.toList) := by
      simp [String.toList, String.data_append]
    have ho2 : ¬(o.data = []) := ho
    have ha2 : ¬(a.data = []) := ha
    have hv2 : ¬(v.data = []) := hv
    unfold Platform.from_str platform_regex_match
    rw [ht, splitOnSlash_append_slash _ _ hos,
      splitOnSlash_append_slash _ _ has, splitOnSlash_no_slash _ hvs]
    simp [ho2, ha2, hv2, string_mk_data]
  · intro o ho hos
    have ho2 : ¬(o.data = []) := ho
    unfold Platform.from_str platform_regex_match
    rw [splitOnSlash_no_slash _ hos]
    simp [ho2]
  · intro s
    constructor
    · intro h
      cases hm : platform_regex_match s with
      | none => rfl
      | some m =>
        cases hma : m.architecture <;>
          simp [Platform.from_str, hm, hma] at h
    · intro h
      simp [Platform.from_str, h]

/-- Witness for C3_from_str_parsing at `"linux/amd64"`. -/
theorem C3_from_str_parsing_witness :
    Platform.from_str ("linux" ++ "/" ++ "amd64") =
      .ok ⟨"linux", "amd64", none⟩ :=
  C3_from_str_parsing.1 "linux" "amd64" (by decide) (by decide) (by decide)
    (by decide)

/-! ## Claim C4 — Platform.is_match -/

/-- C4: `is_match` returns true iff each of the three filter fields is
absent (wildcard) or equal to the platform's field under exact string
equality; in particular `{linux, amd64}` matches the empty filter and
`{os: linux}`, and matches neither `{os: windows}` nor
`{architecture: arm64}`. -/
theorem C4_is_match_characterization :
    (∀ (p : Platform) (f : PyDict),
      p.is_match f = true ↔
        ((pyIsNone (jGet f "os") = true ∨ jGet f "os" = some (.str p.os)) ∧
         (pyIsNone (jGet f "architecture") = true ∨
           jGet f "architecture" = some (.str p.architecture)) ∧
         (pyIsNone (jGet f "variant") = true ∨
           ∃ v, jGet f "variant" = some (.str v) ∧ p.variant = some v))) ∧
    (Platform.mk "linux" "amd64" none).is_match [] = true ∧
    (Platform.mk "linux" "amd64" none).is_match [("os", .str "linux")] = true ∧
    (Platform.mk "linux" "amd64" none).is_match [("os", .str "windows")] = false ∧
    (Platform.mk "linux" "amd64" none).is_match
      [("architecture", .str "arm64")] = false := by
  refine ⟨?_, rfl, rfl, rfl, rfl⟩
  intro p f
  simp only [Platform.is_match, Bool.and_eq_true, Bool.or_eq_true,
    pyStrEq_eq_true_iff, pyOptStrEq_eq_true_iff]
  tauto

/-! ## Claim C6 — resolve_credentials -/

/-- C6: resolution is decided by input shape with fixed precedence.
`None` yields `(None, None, None, "token")`; any cloud-IAM indicator key
routes through the token exchange and yields
`(exchangedUser, exchangedPass, fallbackHost, "basic")` (even when
username and password are also present, since no other condition is
consulted); otherwise both `username` and `password` present yield the
static tuple with the credentials' registry_url when present, else the
fallback host; every remaining shape is an unsupported-format error. -/
theorem C6_resolve_credentials_shape (exchange : CredDict → String × String)
    (host : String) :
    (resolve_credentials exchange none host = .ok ⟨none, none, none, "token"⟩) ∧
    (∀ creds : CredDict, aws_keys.any (fun k => credHas creds k) = true →
      resolve_credentials exchange (some creds) host =
        .ok ⟨some (.str (exchange creds).1), some (.str (exchange creds).2),
             some (.str host), "basic"⟩) ∧
    (∀ (creds : CredDict) (u p : PyStr),
      aws_keys.any (fun k => credHas creds k) = false →
      credGet creds "username" = some u → credGet creds "password" = some p →
      resolve_credentials exchange (some creds) host =
        .ok ⟨some u, some (unwrap_secret p),
             some ((credGet creds "registry_url").getD (.str host)), "token"⟩) ∧
    (∀ creds : CredDict,
      aws_keys.any (fun k => credHas creds k) = false →
      (credGet creds "username" = none ∨ credGet creds "password" = none) →
      resolve_credentials exchange (some creds) host =
        .error "Unsupported credentials format.") := by
  refine ⟨rfl, ?_, ?_, ?_⟩
  · intro creds haws
    simp [resolve_credentials, haws]
  · intro creds u p haws hu hp
    simp [resolve_credentials, haws, hu, hp]
  · intro creds haws hup
    cases hup with
    | inl hu => cases hp : credGet creds "password" <;>
        simp [resolve_credentials, haws, hu, hp]
    | inr hp => cases hu : credGet creds "username" <;>
        simp [resolve_credentials, haws, hu, hp]

/-- Witness for C6_resolve_credentials_shape: a profile_name-bearing dict
takes the cloud-IAM path even though username and password are present. -/
theorem C6_resolve_credentials_shape_witness :
    resolve_credentials demo_exchange
      (some [("profile_name", .str "x"), ("username", .str "u"),
             ("password", .str "p")]) "host" =
      .ok ⟨some (.str "AWS"), some (.str "secret-token"),
           some (.str "host"), "basic"⟩ :=
  (C6_resolve_credentials_shape demo_exchange "host").2.1
    [("profile_name", .str "x"), ("username", .str "u"), ("password", .str "p")]
    (by decide)

/-! ## Claim C1 — digest extraction from upload responses -/

/-- C1: the source never consults the content-digest response header,
although its own comment describes the Location header as a fallback for
it.  On a 201 response carrying only `Docker-Content-Digest:
sha256:aaa`, extraction fails with the digest-not-found ValueError
instead of returning `sha256:aaa`; and when both headers are present
with different digests, the Location value wins instead of the
content-digest header. -/
theorem C1_content_digest_header_ignored :
    extract_manifest_digest_from_upload_response
      ⟨201, some "sha256:aaa", none⟩ =
      .error (.valueError "Manifest digest not found in response headers.") ∧
    extract_manifest_digest_from_upload_response
      ⟨201, some "sha256:aaa",
       some "https://registry.example.com/v2/repo/manifests/sha256:bbb"⟩ =
      .ok "sha256:bbb" := by
  exact ⟨rfl, rfl⟩

/-! ## Claim C2 — pull treats index-fetch failures as non-fatal -/

/-- C2, counterexample: a 200 response whose body is a plain
single-image manifest fails image-index schema validation; the resulting
jsonschema ValidationError is not a ValueError, so `except ValueError`
does not catch it and `pull` surfaces it to the caller instead of
falling through to single-manifest handling. -/
theorem C2_schema_failure_surfaces :
    pull_resolve ⟨200, plain_manifest_doc⟩ host_amd64 c_orig =
      .error .jsonschemaValidationError := rfl

/-- C2 (amended): during pull, a failing index fetch (non-2xx status,
raising a ValueError) is caught and processing falls through to
single-manifest pull of the original reference; but a fetched 200
document that fails image-index schema validation raises a jsonschema
ValidationError, which `except ValueError` does not catch, so that
failure is surfaced to the caller. -/
theorem C2_pull_index_failure_handling :
    (∀ (r : HttpResponse) (host : Platform) (c : Container),
      check_200 r.status_code = false →
      pull_resolve r host c = .ok c) ∧
    (∀ (r : HttpResponse) (host : Platform) (c : Container),
      check_200 r.status_code = true →
      validate_image_index r.body = false →
      pull_resolve r host c = .error .jsonschemaValidationError) := by
  constructor
  · intro r host c h
    simp [pull_resolve, get_image_index, h, PyError.isValueError, bind,
      Except.bind]
  · intro r host c h hv
    simp [pull_resolve, get_image_index, h, hv, PyError.isValueError, bind,
      Except.bind]

/-- Witness for C2_pull_index_failure_handling: a 404 falls through to
the original reference. -/
theorem C2_pull_index_failure_handling_witness :
    pull_resolve ⟨404, .null⟩ host_amd64 c_orig = .ok c_orig :=
  C2_pull_index_failure_handling.1 ⟨404, .null⟩ host_amd64 c_orig (by decide)

/-! ## Claim C5 — platform selection during pull -/

/-- The all-wildcard filter: every platform matches the empty dict. -/
theorem is_match_nil (host : Platform) : host.is_match [] = true := by
  simp [Platform.is_match, jGet, pyIsNone]

/-- C5: the pull loop selects the first index entry whose platform dict
matches the detected host platform and rewrites the working reference to
that entry's digest, clearing the tag and setting the digest while
keeping registry and repository; with no matching entry the original
reference is kept, not an error.  Concretely, for an index listing a
linux/arm64 entry and then a linux/amd64 entry, a linux/amd64 host
selects the amd64 entry's digest, and the reference handed to the
transport carries that digest and no tag. -/
theorem C5_pull_platform_selection :
    (∀ (host : Platform) (c : Container) (ms : List JValue),
      (∀ m ∈ ms, entry_match host m = false) →
      pull_select host c ms = .ok c) ∧
    (∀ (host : Platform) (c : Container) (m : JValue) (rest : List JValue)
        (d : String),
      entry_match host m = true →
      jGet (entry_fields m) "digest" = some (.str d) →
      pull_select host c (m :: rest) = .ok (c.with_new_digest d)) ∧
    (∀ (host : Platform) (c : Container) (m : JValue) (rest : List JValue),
      entry_match host m = false →
      pull_select host c (m :: rest) = pull_select host c rest) ∧
    (∀ (c : Container) (d : String),
      (c.with_new_digest d).tag = none ∧
      (c.with_new_digest d).digest = some d ∧
      (c.with_new_digest d).registry = c.registry ∧
      (c.with_new_digest d).repository = c.repository) ∧
    (pull_resolve ⟨200, index_two_platforms⟩ host_amd64 c_orig =
      .ok (c_orig.with_new_digest "sha256:amd64digest") ∧
     (c_orig.with_new_digest "sha256:amd64digest").tag = none ∧
     (c_orig.with_new_digest "sha256:amd64digest").digest =
       some "sha256:amd64digest") := by
  refine ⟨?_, ?_, ?_, ?_, rfl, rfl, rfl⟩
  · intro host c ms hall
    induction ms with
    | nil => rfl
    | cons m rest ih =>
      have hm : entry_match host m = false := hall m (by simp)
      have hrest : ∀ x ∈ rest, entry_match host x = false :=
        fun x hx => hall x (by simp [hx])
      simp [pull_select, hm, ih hrest]
  · intro host c m rest d hm hd
    simp [pull_select, hm, hd]
  · intro host c m rest hm
    simp [pull_select, hm]
  · intro c d
    refine ⟨rfl, rfl, rfl, rfl⟩

/-- Witness for C5_pull_platform_selection: the arm64 entry is skipped,
the amd64 entry is selected. -/
theorem C5_pull_platform_selection_witness :
    pull_select host_amd64 c_orig [entry_arm64, entry_amd64] =
      .ok (c_orig.with_new_digest "sha256:amd64digest") :=
  (C5_pull_platform_selection.2.2.1 host_amd64 c_orig entry_arm64
      [entry_amd64] rfl).trans
    (C5_pull_platform_selection.2.1 host_amd64 c_orig entry_amd64 []
      "sha256:amd64digest" rfl rfl)

/-! ## Claim C10 — index entries without a platform field -/

/-- C10, counterexample: with two platform-less entries, the second one
precedes every entry whose platform genuinely matches the host
(vacuously, there are none), yet its digest is not the one selected —
the loop takes the first platform-less entry. -/
theorem C10_two_platformless_counterexample :
    jGet (entry_fields entry_no_platform_second) "platform" = none ∧
    entry_match host_amd64 entry_no_platform_second = true ∧
    pull_select host_amd64 c_orig
      [entry_no_platform_first, entry_no_platform_second] =
      .ok (c_orig.with_new_digest "sha256:d0") ∧
    c_orig.with_new_digest "sha256:d0" ≠ c_orig.with_new_digest "sha256:d1" := by
  refine ⟨rfl, rfl, rfl, by decide⟩

/-- C10 (amended): an index entry with no platform field is matched
against the empty dict, which `is_match` treats as all-wildcard, so it
matches every detected host platform; its digest is selected whenever
every preceding entry fails the loop's match test (that is, whenever it
is the first entry that is platform-less or genuinely matching). -/
theorem C10_platformless_entry_matches :
    (∀ host : Platform, host.is_match [] = true) ∧
    (∀ (host : Platform) (m : JValue),
      jGet (entry_fields m) "platform" = none → entry_match host m = true) ∧
    (∀ (host : Platform) (c : Container) (pre rest : List JValue)
        (fields : PyDict) (d : String),
      (∀ m ∈ pre, entry_match host m = false) →
      jGet fields "platform" = none →
      jGet fields "digest" = some (.str d) →
      pull_select host c (pre ++ .obj fields :: rest) =
        .ok (c.with_new_digest d)) := by
  have hwild : ∀ (host : Platform) (m : JValue),
      jGet (entry_fields m) "platform" = none → entry_match host m = true := by
    intro host m hm
    unfold entry_match entry_platform_fields
    rw [hm]
    exact is_match_nil host
  refine ⟨is_match_nil, hwild, ?_⟩
  intro host c pre rest fields d hall hplat hd
  induction pre with
  | nil =>
    have hm : entry_match host (.obj fields) = true := hwild host (.obj fields) hplat
    simp [pull_select, hm, entry_fields, hd]
  | cons m pre ih =>
    have hm : entry_match host m = false := hall m (by simp)
    have hrest : ∀ x ∈ pre, entry_match host x = false :=
      fun x hx => hall x (by simp [hx])
    simp [pull_select, hm, ih hrest]

/-- Witness for C10_platformless_entry_matches: a platform-less entry
after one non-matching arm64 entry is selected. -/
theorem C10_platformless_entry_matches_witness :
    pull_select host_amd64 c_orig
      ([entry_arm64] ++ JValue.obj [("digest", .str "sha256:d0")] :: []) =
      .ok (c_orig.with_new_digest "sha256:d0") := by
  apply C10_platformless_entry_matches.2.2
  · intro m hm
    simp only [List.mem_singleton] at hm
    subst hm
    rfl
  · rfl
  · rfl

/-! ## Claim C7 — image index assembly -/

theorem jGet_filter_none (p : String × JValue → Bool) (m : PyDict) (k : String)
    (hp : ∀ v : JValue, p (k, v) = false) :
    jGet (m.filter p) k = none := by
  induction m with
  | nil => rfl
  | cons kv rest ih =>
    obtain ⟨k1, v1⟩ := kv
    rw [List.filter_cons]
    by_cases hkv : p (k1, v1) = true
    · have hne : ¬((k1 == k) = true) := by
        simp only [beq_iff_eq]
        intro he
        subst he
        rw [hp v1] at hkv
        exact Bool.false_ne_true hkv
      rw [if_pos hkv]
      simp only [jGet] at ih ⊢
      rw [List.find?_cons_of_neg]
      · exact ih
      · exact hne
    · rw [if_neg hkv]
      exact ih

theorem jGet_filter_kept (p : String × JValue → Bool) (m : PyDict) (k : String)
    (hp : ∀ v : JValue, p (k, v) = true) :
    jGet (m.filter p) k = jGet m k := by
  induction m with
  | nil => rfl
  | cons kv rest ih =>
    obtain ⟨k1, v1⟩ := kv
    rw [List.filter_cons]
    by_cases hkk : (k1 == k) = true
    · have hk1 : k1 = k := by simpa only [beq_iff_eq] using hkk
      subst hk1
      rw [if_pos (hp v1)]
      simp only [jGet]
      rw [List.find?_cons_of_pos]
      · rw [List.find?_cons_of_pos]
        exact hkk
      · exact hkk
    · by_cases hkv : p (k1, v1) = true
      · rw [if_pos hkv]
        simp only [jGet] at ih ⊢
        rw [List.find?_cons_of_neg]
        · rw [List.find?_cons_of_neg]
          · exact ih
          · exact hkk
        · exact hkk
      · rw [if_neg hkv]
        simp only [jGet] at ih ⊢
        rw [List.find?_cons_of_neg]
        · exact ih
        · exact hkk

/-- C7: the assembled index has schemaVersion 2, the image-index media
type, empty annotations, and a manifests array that contains one entry
per input manifest, in input order and without deduplication; each entry
keeps every key of its manifest except `schemaVersion`, `layers` and
`config`, and those three keys never occur in an entry. -/
theorem C7_create_index (manifests : List PyDict) :
    jGet (create_oci_image_index_manifest manifests) "schemaVersion" =
      some (.num 2) ∧
    jGet (create_oci_image_index_manifest manifests) "mediaType" =
      some (.str default_image_index_media_type) ∧
    jGet (create_oci_image_index_manifest manifests) "annotations" =
      some (.obj []) ∧
    jGet (create_oci_image_index_manifest manifests) "manifests" =
      some (.arr (manifests.map (fun m => .obj (strip_index_entry_keys m)))) ∧
    (∀ m : PyDict,
      jGet (strip_index_entry_keys m) "schemaVersion" = none ∧
      jGet (strip_index_entry_keys m) "layers" = none ∧
      jGet (strip_index_entry_keys m) "config" = none) ∧
    (∀ (m : PyDict) (k : String),
      ¬(k = "schemaVersion" ∨ k = "layers" ∨ k = "config") →
      jGet (strip_index_entry_keys m) k = jGet m k) := by
  refine ⟨rfl, rfl, rfl, rfl, ?_, ?_⟩
  · intro m
    refine ⟨jGet_filter_none _ m _ (fun v => rfl),
      jGet_filter_none _ m _ (fun v => rfl),
      jGet_filter_none _ m _ (fun v => rfl)⟩
  · intro m k hk
    apply jGet_filter_kept
    intro v
    simp only [List.contains_eq_any_beq, List.any_cons, List.any_nil,
      beq_iff_eq, Bool.not_eq_true', Bool.or_eq_false_iff]
    push_neg at hk
    simp [hk.1, hk.2.1, hk.2.2, decide_eq_false]

/-- Witness for C7_create_index: a digest key survives stripping while
the layers key is removed. -/
theorem C7_create_index_witness :
    jGet (strip_index_entry_keys
      [("digest", .str "sha256:x"), ("layers", .arr [])]) "digest" =
      jGet [("digest", JValue.str "sha256:x"), ("layers", .arr [])] "digest" :=
  (C7_create_index []).2.2.2.2.2
    [("digest", .str "sha256:x"), ("layers", .arr [])] "digest" (by simp)

/-! ## Claim C8 — reproducible archives -/

/-- C8: `reset` forces uid and gid to 0, uname and gname to "root" and
mtime to 0 on every entry, and the gzip header timestamp is forced to 0,
so two invocations over an identical file set (same paths, permission
bits and contents, supplied in identical iteration order) produce
byte-identical archives regardless of the files' ownership and timestamp
metadata and of the wall-clock time. -/
theorem C8_make_targz_reproducible
    (tar_serialize : List TarInfo → List Nat)
    (gzip_compress : Int → List Nat → List Nat)
    (archive_root : Option String) (clock1 clock2 : Int)
    (items1 items2 : List SourceFile)
    (h : items1.map source_identity = items2.map source_identity) :
    make_targz tar_serialize gzip_compress clock1 archive_root items1 =
      make_targz tar_serialize gzip_compress clock2 archive_root items2 := by
  have key : ∀ its : List SourceFile,
      its.map (fun f => reset (gettarinfo archive_root f)) =
        (its.map source_identity).map (reset_tarinfo_of archive_root) := by
    intro its
    rw [List.map_map]
    rfl
  unfold make_targz
  rw [key items1, key items2, h]

/-- Witness for C8_make_targz_reproducible: the same file content under
different ownership and timestamps, archived at different wall-clock
times, yields the same bytes. -/
theorem C8_make_targz_reproducible_witness :
    make_targz demo_tar_serialize demo_gzip_compress 1700000000
      (some "layer") [fileA_run1] =
      make_targz demo_tar_serialize demo_gzip_compress 42
        (some "layer") [fileA_run2] :=
  C8_make_targz_reproducible demo_tar_serialize demo_gzip_compress
    (some "layer") 1700000000 42 [fileA_run1] [fileA_run2] (by decide)

/-! ## Claim C9 — diff IDs -/

theorem absorbBlocksAux_fuel_irrelevant :
    ∀ (f1 f2 : Nat) (h data : List Nat),
      data.length ≤ 64 * f1 → data.length ≤ 64 * f2 →
      absorbBlocksAux f1 h data = absorbBlocksAux f2 h data := by
  intro f1
  induction f1 with
  | zero =>
    intro f2 h data h1 h2
    have hlt : ¬(64 ≤ data.length) := by omega
    cases f2 with
    | zero => rfl
    | succ g => simp [absorbBlocksAux, hlt]
  | succ n ih =>
    intro f2 h data h1 h2
    cases f2 with
    | zero =>
      have hlt : ¬(64 ≤ data.length) := by omega
      simp [absorbBlocksAux, hlt]
    | succ g =>
      by_cases h64 : 64 ≤ data.length
      · simp only [absorbBlocksAux, h64, if_true]
        exact ih g _ _ (by simp only [List.length_drop]; omega)
          (by simp only [List.length_drop]; omega)
      · simp [absorbBlocksAux, h64]

theorem absorbBlocks_step (h data : List Nat) :
    absorbBlocks h data =
      if 64 ≤ data.length then
        absorbBlocks (compress256 h (data.take 64)) (data.drop 64)
      else (h, data) := by
  by_cases h64 : 64 ≤ data.length
  · rw [if_pos h64]
    unfold absorbBlocks
    cases hl : data.length with
    | zero => omega
    | succ n =>
      simp only [absorbBlocksAux, h64, if_true]
      exact absorbBlocksAux_fuel_irrelevant n (data.drop 64).length _ _
        (by simp only [List.length_drop]; omega)
        (by simp only [List.length_drop]; omega)
  · rw [if_neg h64]
    unfold absorbBlocks
    cases hl : data.length with
    | zero => rfl
    | succ n => simp [absorbBlocksAux, h64]

theorem absorbBlocks_append_bounded :
    ∀ (n : Nat) (h x y : List Nat), x.length ≤ n →
      absorbBlocks h (x ++ y) =
        absorbBlocks (absorbBlocks h x).1 ((absorbBlocks h x).2 ++ y) := by
  intro n
  induction n with
  | zero =>
    intro h x y hx
    have hnil : x = [] := List.eq_nil_of_length_eq_zero (by omega)
    subst hnil
    rw [absorbBlocks_step h [], if_neg (by simp)]
  | succ n ih =>
    intro h x y hx
    by_cases h64 : 64 ≤ x.length
    · have h64' : 64 ≤ (x ++ y).length := by
        simp only [List.length_append]; omega
      rw [absorbBlocks_step h (x ++ y), if_pos h64',
        List.take_append_of_le_length h64, List.drop_append_of_le_length h64,
        absorbBlocks_step h x, if_pos h64]
      exact ih _ _ y (by simp only [List.length_drop]; omega)
    · rw [absorbBlocks_step h x, if_neg h64]

theorem absorbBlocks_append (h x y : List Nat) :
    absorbBlocks h (x ++ y) =
      absorbBlocks (absorbBlocks h x).1 ((absorbBlocks h x).2 ++ y) :=
  absorbBlocks_append_bounded x.length h x y le_rfl

theorem absorbBlocks_snd_short :
    ∀ (n : Nat) (h data : List Nat), data.length ≤ n →
      (absorbBlocks h data).2.length < 64 := by
  intro n
  induction n with
  | zero =>
    intro h data hd
    rw [absorbBlocks_step, if_neg (by omega)]
    show data.length < 64
    omega
  | succ n ih =>
    intro h data hd
    rw [absorbBlocks_step]
    by_cases h64 : 64 ≤ data.length
    · rw [if_pos h64]
      exact ih _ _ (by simp only [List.length_drop]; omega)
    · rw [if_neg h64]
      show data.length < 64
      omega

theorem sha256_update_buf_short (s : Sha256State) (chunk : List Nat) :
    (sha256_update s chunk).buf.length < 64 :=
  absorbBlocks_snd_short (s.buf ++ chunk).length _ _ le_rfl

theorem sha256_update_append (s : Sha256State) (a b : List Nat) :
    sha256_update (sha256_update s a) b = sha256_update s (a ++ b) := by
  unfold sha256_update
  simp only []
  rw [← List.append_assoc, absorbBlocks_append s.h (s.buf ++ a) b]
  simp [List.length_append, Nat.add_assoc]

theorem sha256_update_nil (s : Sha256State) (hb : s.buf.length < 64) :
    sha256_update s [] = s := by
  unfold sha256_update
  rw [List.append_nil, absorbBlocks_step, if_neg (by omega)]
  cases s
  simp

theorem foldl_sha256_update (chunks : List (List Nat)) :
    ∀ s : Sha256State, s.buf.length < 64 →
      chunks.foldl sha256_update s = sha256_update s chunks.flatten := by
  induction chunks with
  | nil =>
    intro s hb
    simp [sha256_update_nil s hb]
  | cons c cs ih =>
    intro s hb
    simp only [List.foldl_cons, List.flatten_cons]
    rw [ih (sha256_update s c) (sha256_update_buf_short s c),
      sha256_update_append]

/-- C9: `diff_id_from_tar_gz` streams the gzip-decompressed chunks of
the archive through a SHA-256 context, and the result is exactly the
SHA-256 hex digest of the whole decompressed byte stream, independent of
how the stream was chunked; hence two archives with the same
decompressed content always yield the same hex digest. -/
theorem C9_diff_id_streams_sha256 (a b : GzArchive) :
    diff_id_from_tar_gz a = sha256_hexdigest a.chunks.flatten ∧
    (a.chunks.flatten = b.chunks.flatten →
      diff_id_from_tar_gz a = diff_id_from_tar_gz b) := by
  have key : ∀ g : GzArchive,
      diff_id_from_tar_gz g = sha256_hexdigest g.chunks.flatten := by
    intro g
    unfold diff_id_from_tar_gz sha256_hexdigest
    rw [foldl_sha256_update g.chunks sha256_init (by simp [sha256_init])]
  exact ⟨key a, fun h => by rw [key a, key b, h]⟩

/-- Witness for C9_diff_id_streams_sha256: the digest of the stream read
as two chunks equals the digest of the stream read as one chunk. -/
theorem C9_diff_id_streams_sha256_witness :
    diff_id_from_tar_gz ⟨[[97], [98, 99]]⟩ =
      diff_id_from_tar_gz ⟨[[97, 98, 99]]⟩ :=
  (C9_diff_id_streams_sha256 ⟨[[97], [98, 99]]⟩ ⟨[[97, 98, 99]]⟩).2 (by decide)

set_option maxRecDepth 8000 in
/-- Sanity check of the SHA-256 implementation against the FIPS 180-4
test vector for the empty message. -/
theorem sha256_hexdigest_empty :
    sha256_hexdigest [] =
      "e3b0c44298fc1c149afbf4c8996fb92427ae41e4649b934ca495991b7852b855" := by
  decide

set_option maxRecDepth 8000 in
/-- Sanity check of the SHA-256 implementation against the FIPS 180-4
test vector for the message "abc". -/
theorem sha256_hexdigest_abc :
    sha256_hexdigest [97, 98, 99] =
      "ba7816bf8f01cfea414140de5dae2223b00361a396177a9cb410ff61f20015ad" := by
  decide
